import Mathlib

/-!
Shallow embedding of `build-release.py` (litecoin release builder orchestrator).

The script shells out to external tools (gitian `gbuild`/`gsign`/`gverify`,
`git`, `gpg` machinery).  We model every external invocation as a `Cmd` value
carrying the argument strings the script passes, a straight-line stage body as
a `List Step` where each step records whether the script used
`subprocess.check_call`/`check_output` (raises on failure, aborting the stage)
or plain `subprocess.call`/`run` (result ignored or inspected, never raises),
and the external world as an oracle `Cmd → Bool` giving each command's
success.  `execSteps` is the Python execution semantics of such a body: it
runs steps in order, records the commands attempted, and stops at the first
failing checked step with an uncaught-exception marker.
-/

namespace BuildRelease

/-- An external command invoked by the script, with the argument strings the
script passes that matter to behavior. -/
inductive Cmd where
  /-- `bin/gbuild -j jobs -m memory --fetch-tags --commit commitBinding --url urlBinding descriptor` -/
  | gbuild (jobs memory commitBinding urlBinding descriptor : String)
  /-- `bin/gbuild --skip-image --upgrade --fetch-tags --commit commitBinding descriptor` (sign stage variant) -/
  | gbuildSig (commitBinding descriptor : String)
  /-- `bin/gsign -p signProg --signer signer --release release --destination destination descriptor` -/
  | gsign (signProg signer release destination descriptor : String)
  /-- a `shell=True` one-liner (file moves/copies, codesign script, packaging) -/
  | shell (cmdLine : String)
  /-- `git pull` inside repository `repo` -/
  | gitPull (repo : String)
  /-- `git add path` inside repository `repo` -/
  | gitAdd (repo path : String)
  /-- `git add -A` inside repository `repo` -/
  | gitAddAll (repo : String)
  /-- `git commit -m message` inside repository `repo` -/
  | gitCommit (repo message : String)
  /-- `git commit -a -m message` inside repository `repo` -/
  | gitCommitAll (repo message : String)
  /-- `git checkout -B branch` inside repository `repo` -/
  | gitCheckoutB (repo branch : String)
  /-- `rm -rf *` inside repository `repo` -/
  | rmRf (repo : String)
  /-- `tar xf archive` inside repository `repo` -/
  | tarExtract (repo archive : String)
  /-- `git tag -s tag -m tag HEAD` inside repository `repo` -/
  | gitTagSigned (repo tag : String)
  /-- `git push --set-upstream origin ref --tags` inside repository `repo` -/
  | gitPush (repo ref : String)
  /-- `bin/gverify -v -d destination -r release descriptor` -/
  | gverify (destination release descriptor : String)
  /-- `gpgconf --kill gpg-agent` -/
  | killAgent
  /-- `gpg-agent --daemon --allow-preset-passphrase` -/
  | startAgentDaemon
  /-- `gpg --fingerprint --with-keygrip signer | awk ...` (keygrip enumeration) -/
  | listKeygrips (signer : String)
  /-- `echo "password" | /usr/lib/gnupg/gpg-preset-passphrase --preset keygrip` -/
  | presetPassphrase (password keygrip : String)
  /-- `git fetch url ref` (pull-request merge head fetch) -/
  | gitFetchPR (url ref : String)
  /-- `git show -s --format=%H FETCH_HEAD` -/
  | gitShowHead
  /-- `lsb_release -cs` (run by `parse_args` to set `is_bionic`) -/
  | lsbRelease
deriving DecidableEq, Repr

/-- One step of a stage body: the command together with whether the script
wraps it in `subprocess.check_call`/`check_output` (raises on failure) or a
non-raising call. -/
inductive Step where
  | checked (c : Cmd)
  | unchecked (c : Cmd)
deriving DecidableEq, Repr

/-- The command of a step, forgetting the checked/unchecked mode. -/
def Step.cmd : Step → Cmd
  | .checked c => c
  | .unchecked c => c

/-- All commands of a stage body, in program order. -/
def stepCmds (l : List Step) : List Cmd := l.map Step.cmd

/-- Execution semantics of a straight-line stage body under a success oracle
`w`: returns the commands attempted in order, paired with `true` when the body
ran to completion and `false` when a checked command failed (the Python
`CalledProcessError` propagates and everything after the failing command is
skipped). -/
def execSteps (w : Cmd → Bool) : List Step → List Cmd × Bool
  | [] => ([], true)
  | .checked c :: rest =>
    if w c then
      let r := execSteps w rest
      (c :: r.1, r.2)
    else ([c], false)
  | .unchecked c :: rest =>
    let r := execSteps w rest
    (c :: r.1, r.2)

theorem stepCmds_append (l₁ l₂ : List Step) :
    stepCmds (l₁ ++ l₂) = stepCmds l₁ ++ stepCmds l₂ := by
  simp [stepCmds]

theorem execSteps_append (w : Cmd → Bool) (l₁ l₂ : List Step) :
    execSteps w (l₁ ++ l₂) =
      if (execSteps w l₁).2 then
        ((execSteps w l₁).1 ++ (execSteps w l₂).1, (execSteps w l₂).2)
      else execSteps w l₁ := by
  induction l₁ with
  | nil => simp [execSteps]
  | cons s rest ih =>
    cases s with
    | checked c =>
      by_cases hc : w c
      · simp [execSteps, hc, ih]
        split <;> simp
      · simp [execSteps, hc]
    | unchecked c =>
      simp [execSteps, ih]
      split <;> simp

/-- When every external command succeeds, a stage body runs every command in
order and completes. -/
theorem execSteps_allTrue (w : Cmd → Bool) (h : ∀ c, w c = true) (l : List Step) :
    execSteps w l = (stepCmds l, true) := by
  induction l with
  | nil => simp [execSteps, stepCmds]
  | cons s rest ih =>
    cases s with
    | checked c => simp [execSteps, h c, ih, stepCmds, Step.cmd]
    | unchecked c => simp [execSteps, ih, stepCmds, Step.cmd]

/-- A stage body that ran to completion attempted exactly its command list. -/
theorem execSteps_trace_of_ok (w : Cmd → Bool) (l : List Step)
    (h : (execSteps w l).2 = true) : (execSteps w l).1 = stepCmds l := by
  induction l with
  | nil => simp [execSteps, stepCmds]
  | cons s rest ih =>
    cases s with
    | checked c =>
      by_cases hc : w c
      · simp [execSteps, hc] at h ⊢
        simp [stepCmds, Step.cmd, ih h]
      · simp [execSteps, hc] at h
    | unchecked c =>
      simp [execSteps] at h ⊢
      simp [stepCmds, Step.cmd, ih h]

/-- Failure semantics of a stage body: if the body decomposes as a prefix
whose checked commands all succeed, followed by a failing checked command,
execution attempts exactly the prefix plus the failing command and stops
there with the failure marker — nothing after the failing command is
attempted. -/
theorem execSteps_fail_at (w : Cmd → Bool) (l₁ : List Step) (c : Cmd) (l₂ : List Step)
    (h₁ : ∀ c', Step.checked c' ∈ l₁ → w c' = true) (hc : w c = false) :
    execSteps w (l₁ ++ Step.checked c :: l₂) = (stepCmds l₁ ++ [c], false) := by
  induction l₁ with
  | nil => simp [execSteps, hc, stepCmds]
  | cons s rest ih =>
    cases s with
    | checked c₀ =>
      have hc₀ : w c₀ = true := h₁ c₀ (by simp)
      have h := ih fun c' hm => h₁ c' (List.mem_cons_of_mem _ hm)
      simp [execSteps, hc₀, h, stepCmds, Step.cmd]
    | unchecked c₀ =>
      have h := ih fun c' hm => h₁ c' (List.mem_cons_of_mem _ hm)
      simp [execSteps, h, stepCmds, Step.cmd]

/-- Completion of a stage body implies every checked command in it succeeded. -/
theorem execSteps_ok_checked (w : Cmd → Bool) (l : List Step)
    (h : (execSteps w l).2 = true) :
    ∀ c : Cmd, Step.checked c ∈ l → w c = true := by
  induction l with
  | nil => intro c hc; simp at hc
  | cons s rest ih =>
    intro c hc
    cases s with
    | checked c₀ =>
      by_cases hw : w c₀
      · simp [execSteps, hw] at h
        rcases List.mem_cons.mp hc with h₁ | h₁
        · cases h₁; exact hw
        · exact ih h c h₁
      · simp [execSteps, hw] at h
    | unchecked c₀ =>
      simp [execSteps] at h
      rcases List.mem_cons.mp hc with h₁ | h₁
      · cases h₁
      · exact ih h c h₁

/-! ## Command-line arguments and `parse_args` -/

/-- The raw command-line options as argparse delivers them to `parse_args`
(before the script's own post-processing).  `signer`/`version` are the
optional positional arguments (`nargs` set to optional, so `none` when
omitted; argparse never yields an empty string unless the user passes one
explicitly). -/
structure CliArgs where
  commit : Bool := false
  pull : Bool := false
  url : String := "https://github.com/litecoin-project/litecoin"
  verify : Bool := false
  build : Bool := false
  sign : Bool := false
  buildsign : Bool := false
  os : String := "lwm"
  jobs : String := "2"
  memory : String := "2000"
  kvm : Bool := false
  docker : Bool := false
  setup : Bool := false
  detach_sign : Bool := false
  commit_files : Bool := true
  codesign : Bool := false
  package : Bool := false
  gpg_password : String := ""
  disable_apt_cacher : Bool := false
  signer : Option String := none
  version : Option String := none
deriving DecidableEq, Repr

/-- The args record after `parse_args` post-processing.  Mirroring the
source, the `commit` field is overwritten from a flag into the commit
reference string (`'' if args.commit else 'v') + args.version`). -/
structure Args where
  commit : String
  pull : Bool
  url : String
  verify : Bool
  build : Bool
  sign : Bool
  buildsign : Bool
  os : String
  jobs : String
  memory : String
  kvm : Bool
  docker : Bool
  setup : Bool
  detach_sign : Bool
  commit_files : Bool
  codesign : Bool
  package : Bool
  gpg_password : String
  disable_apt_cacher : Bool
  linux : Bool
  windows : Bool
  macos : Bool
  sign_prog : String
  is_bionic : Bool
  signer : String
  version : String
deriving DecidableEq, Repr

/-- How `parse_args` can terminate the process instead of returning. -/
inductive ParseError where
  /-- `raise Exception('Error: cannot have both commit and pull')`:
  uncaught, so the interpreter prints a traceback and exits with status 1. -/
  | conflictCommitPull
  /-- `raise Exception('Error: cannot have both kvm and docker')`: uncaught
  exception, traceback, exit status 1. -/
  | conflictKvmDocker
  /-- `args.commit = ('' if args.commit else 'v') + args.version` with
  `args.version` equal to `None`: `TypeError` (cannot concatenate `None` to
  `str`), uncaught, traceback, exit status 1, before the script's own
  missing-version message is reached. -/
  | typeErrorVersionNone
  /-- the `if not args.signer` branch: prints `Missing signer` plus a
  `--help` hint and calls `sys.exit(1)`. -/
  | missingSigner
  /-- the `if not args.version` branch (reachable only for an explicit empty
  version string): prints `Missing version` plus a `--help` hint and calls
  `sys.exit(1)`. -/
  | missingVersion
deriving DecidableEq, Repr

instance {ε α : Type} [DecidableEq ε] [DecidableEq α] : DecidableEq (Except ε α)
  | .error e₁, .error e₂ => decidable_of_iff (e₁ = e₂) (by simp)
  | .error _, .ok _ => .isFalse (by simp)
  | .ok _, .error _ => .isFalse (by simp)
  | .ok a₁, .ok a₂ => decidable_of_iff (a₁ = a₂) (by simp)

/-- Result of `parse_args`: its outcome plus the external commands it ran
before producing that outcome (`lsb_release -cs` is run unconditionally on
the path that reaches the signer/version checks). -/
structure ParseResult where
  outcome : Except ParseError Args
  externalCalls : List Cmd
deriving DecidableEq, Repr

/-- `parse_args`, after argparse has produced `cli`.  `isBionic` stands for
the outcome of the `lsb_release -cs` probe (an environment input). -/
def parse_args (cli : CliArgs) (isBionic : Bool) : ParseResult :=
  if cli.commit && cli.pull then ⟨.error .conflictCommitPull, []⟩
  else if cli.kvm && cli.docker then ⟨.error .conflictKvmDocker, []⟩
  else
    match cli.version with
    | none => ⟨.error .typeErrorVersionNone, []⟩
    | some v =>
      let commitRef := (if cli.commit then "" else "v") ++ v
      let calls : List Cmd := [.lsbRelease]
      match cli.signer with
      | none => ⟨.error .missingSigner, calls⟩
      | some s =>
        if s = "" then ⟨.error .missingSigner, calls⟩
        else if v = "" then ⟨.error .missingVersion, calls⟩
        else
          ⟨.ok
            { commit := commitRef
              pull := cli.pull
              url := cli.url
              verify := cli.verify
              build := cli.build || cli.buildsign
              sign := cli.sign || cli.buildsign
              buildsign := cli.buildsign
              os := cli.os
              jobs := cli.jobs
              memory := cli.memory
              kvm := cli.kvm
              docker := cli.docker
              setup := cli.setup
              detach_sign := cli.detach_sign
              commit_files := cli.commit_files
              codesign := cli.codesign
              package := cli.package
              gpg_password := cli.gpg_password
              disable_apt_cacher := cli.disable_apt_cacher
              linux := cli.os.contains 'l'
              windows := cli.os.contains 'w'
              macos := cli.os.contains 'm'
              sign_prog := if cli.detach_sign then "true" else "gpg --batch --yes --detach-sign"
              is_bionic := isBionic
              signer := s
              version := v }, calls⟩

/-! ## Environment normalization at the start of `main` -/

/-- The slice of `os.environ` that `main` touches.  `none` means the variable
is absent; `some s` means present with value `s`. -/
structure EnvVars where
  use_lxc : Option String := none
  use_vbox : Option String := none
  use_docker : Option String := none
  gitian_host_ip : Option String := none
  lxc_guest_ip : Option String := none
deriving DecidableEq, Repr

/-- An isolation-mode indicator variable is active when it is present with a
non-empty value (the gitian-builder scripts test the variable's truthiness;
the script's normalization sets inactive indicators to the empty string). -/
def isActive : Option String → Bool
  | some s => !(s == "")
  | none => false

/-- Number of active indicators among `USE_LXC`, `USE_VBOX`, `USE_DOCKER`. -/
def isolationActiveCount (e : EnvVars) : Nat :=
  (if isActive e.use_lxc then 1 else 0)
    + (if isActive e.use_vbox then 1 else 0)
    + (if isActive e.use_docker then 1 else 0)

/-- The environment-normalization block at the top of `main`: clears all
three gitian isolation indicators to the empty string, then sets
`USE_DOCKER=1` when the docker flag is on, else `USE_LXC=1` (plus the two LXC
networking defaults when absent) when the kvm flag is off; with only the kvm
flag on, none of the three is set to `1`. -/
def normalizeEnv (kvm docker : Bool) (e : EnvVars) : EnvVars :=
  let e₁ : EnvVars :=
    { e with use_lxc := some "", use_vbox := some "", use_docker := some "" }
  if docker then { e₁ with use_docker := some "1" }
  else if !kvm then
    { e₁ with
      use_lxc := some "1"
      gitian_host_ip :=
        match e₁.gitian_host_ip with
        | none => some "10.0.3.1"
        | some s => some s
      lxc_guest_ip :=
        match e₁.lxc_guest_ip with
        | none => some "10.0.3.5"
        | some s => some s }
  else e₁

/-! ## Stage bodies

Each stage function of the script is translated into the `List Step` of
external commands it issues, in program order, with the checked/unchecked
mode of each call.  `keygrips` is the line list produced by the keygrip
enumeration (an environment input consumed by `preset_gpg_passphrase`). -/

/-- `preset_gpg_passphrase()`: kill any existing agent (`subprocess.call`,
result ignored), start a fresh agent with preset capability (`check_call`),
enumerate keygrips (`subprocess.run`, never raises), then preset the
passphrase once per keygrip (`check_call` each). -/
def presetSteps (password signer : String) (keygrips : List String) : List Step :=
  Step.unchecked .killAgent
    :: Step.checked .startAgentDaemon
    :: Step.unchecked (.listKeygrips signer)
    :: keygrips.map (fun k => Step.checked (.presetPassphrase password k))

/-- The `gbuild` invocation of the build stage for one target descriptor. -/
def gbuildCmd (a : Args) (descriptor : String) : Cmd :=
  .gbuild a.jobs a.memory ("litecoin=" ++ a.commit) ("litecoin=" ++ a.url) descriptor

/-- `build()`: per enabled target, in the fixed order linux, windows, macos:
`gbuild`, credential staging, `gsign` into the ledger, artifact moves; then,
when `commit_files`, the unsigned-sigs commit block, which stages all three
per-target ledger paths unconditionally and issues one `git commit`. -/
def buildSteps (a : Args) (keygrips : List String) : List Step :=
  (if a.linux then
    Step.checked (gbuildCmd a "../gitian-descriptors/gitian-linux.yml")
      :: presetSteps a.gpg_password a.signer keygrips
      ++ [Step.checked (.gsign a.sign_prog a.signer (a.version ++ "-linux")
            "../gitian.sigs.ltc/" "../gitian-descriptors/gitian-linux.yml"),
          Step.checked (.shell ("mv build/out/litecoin-*.tar.gz build/out/src/litecoin-*.tar.gz ../litecoin-binaries/" ++ a.version))]
  else [])
  ++ (if a.windows then
    Step.checked (gbuildCmd a "../gitian-descriptors/gitian-win.yml")
      :: presetSteps a.gpg_password a.signer keygrips
      ++ [Step.checked (.gsign a.sign_prog a.signer (a.version ++ "-win-unsigned")
            "../gitian.sigs.ltc/" "../gitian-descriptors/gitian-win.yml"),
          Step.checked (.shell "mv build/out/litecoin-*-win-unsigned.tar.gz inputs/"),
          Step.checked (.shell ("mv build/out/litecoin-*.zip build/out/litecoin-*.exe build/out/src/litecoin-*.tar.gz ../litecoin-binaries/" ++ a.version))]
  else [])
  ++ (if a.macos then
    Step.checked (gbuildCmd a "../gitian-descriptors/gitian-osx.yml")
      :: presetSteps a.gpg_password a.signer keygrips
      ++ [Step.checked (.gsign a.sign_prog a.signer (a.version ++ "-osx-unsigned")
            "../gitian.sigs.ltc/" "../gitian-descriptors/gitian-osx.yml"),
          Step.checked (.shell "mv build/out/litecoin-*-osx-unsigned.tar.gz inputs/"),
          Step.checked (.shell ("mv build/out/litecoin-*.tar.gz build/out/litecoin-*.dmg build/out/src/litecoin-*.tar.gz ../litecoin-binaries/" ++ a.version))]
  else [])
  ++ (if a.commit_files then
    [Step.checked (.gitAdd "gitian.sigs.ltc" (a.version ++ "-linux/" ++ a.signer)),
     Step.checked (.gitAdd "gitian.sigs.ltc" (a.version ++ "-win-unsigned/" ++ a.signer)),
     Step.checked (.gitAdd "gitian.sigs.ltc" (a.version ++ "-osx-unsigned/" ++ a.signer)),
     Step.checked (.gitCommit "gitian.sigs.ltc" ("Add " ++ a.version ++ " unsigned sigs for " ++ a.signer))]
  else [])

/-- `codesign()`: credential staging, then the Windows code-signing block
when windows is enabled, then (when `commit_files`) commit, signed tag and
push in the detached-signatures repository. -/
def codesignSteps (a : Args) (keygrips : List String) : List Step :=
  presetSteps a.gpg_password a.signer keygrips
  ++ (if a.windows then
    [Step.checked (.shell ("cp ./litecoin-binaries/" ++ a.version ++ "/*-unsigned.exe ./signing/" ++ a.version ++ "/unsigned/")),
     Step.checked (.shell ("cp ./maintainer/win-codesign* ./signing/" ++ a.version ++ "/")),
     Step.checked (.shell "./win-codesign-create.sh -pkcs12 ../../secrets/windows.p12 -readpass ../../secrets/windows.p12.pass.txt"),
     Step.checked (.gitCheckoutB "litecoin-detached-sigs" a.version),
     Step.checked (.rmRf "litecoin-detached-sigs"),
     Step.checked (.tarExtract "litecoin-detached-sigs" ("../signing/" ++ a.version ++ "/signature-win.tar.gz")),
     Step.checked (.gitAddAll "litecoin-detached-sigs")]
  else [])
  ++ (if a.commit_files then
    [Step.checked (.gitCommit "litecoin-detached-sigs" ("point to " ++ a.version)),
     Step.checked (.gitTagSigned "litecoin-detached-sigs" ("v" ++ a.version)),
     Step.checked (.gitPush "litecoin-detached-sigs" ("v" ++ a.version))]
  else [])

/-- `sign()`: credential staging, then per windows/macos the signature-apply
`gbuild`, `gsign` and artifact move, then (when `commit_files`) the
signed-sigs commit block staging the two signed ledger paths. -/
def signSteps (a : Args) (keygrips : List String) : List Step :=
  presetSteps a.gpg_password a.signer keygrips
  ++ (if a.windows then
    [Step.checked (.shell ("cp inputs/litecoin-" ++ a.version ++ "-win-unsigned.tar.gz inputs/litecoin-win-unsigned.tar.gz")),
     Step.checked (.gbuildSig ("signature=" ++ a.commit) "../gitian-descriptors/gitian-win-signer.yml"),
     Step.checked (.gsign a.sign_prog a.signer (a.version ++ "-win-signed")
       "../gitian.sigs.ltc/" "../gitian-descriptors/gitian-win-signer.yml"),
     Step.checked (.shell ("mv build/out/litecoin-*win64-setup.exe ../litecoin-binaries/" ++ a.version))]
  else [])
  ++ (if a.macos then
    [Step.checked (.shell ("cp inputs/litecoin-" ++ a.version ++ "-osx-unsigned.tar.gz inputs/litecoin-osx-unsigned.tar.gz")),
     Step.checked (.gbuildSig ("signature=" ++ a.commit) "../gitian-descriptors/gitian-osx-signer.yml"),
     Step.checked (.gsign a.sign_prog a.signer (a.version ++ "-osx-signed")
       "../gitian.sigs.ltc/" "../gitian-descriptors/gitian-osx-signer.yml"),
     Step.checked (.shell ("mv build/out/litecoin-osx-signed.dmg ../litecoin-binaries/" ++ a.version ++ "/litecoin-" ++ a.version ++ "-osx.dmg"))]
  else [])
  ++ (if a.commit_files then
    [Step.checked (.gitAdd "gitian.sigs.ltc" (a.version ++ "-win-signed/" ++ a.signer)),
     Step.checked (.gitAdd "gitian.sigs.ltc" (a.version ++ "-osx-signed/" ++ a.signer)),
     Step.checked (.gitCommitAll "gitian.sigs.ltc" ("Add " ++ a.version ++ " signed binary sigs for " ++ a.signer))]
  else [])

/-- `package()`: credential staging, then the fixed shell sequence that
reorganizes the release directory, produces the clear-signed checksum
manifest and detached-signs every file. -/
def packageSteps (a : Args) (keygrips : List String) : List Step :=
  presetSteps a.gpg_password a.signer keygrips
  ++ [Step.checked (.shell "mkdir -p debug && mv ./*-debug* ./debug"),
      Step.checked (.shell "mkdir -p unsigned && mv ./*-unsigned* ./unsigned"),
      Step.checked (.shell "mkdir -p release && find . -maxdepth 1 -type f | xargs mv -t ./release"),
      Step.checked (.shell "sha256sum * > SHA256SUMS && gpg --digest-algo sha256 --clearsign SHA256SUMS && rm ./SHA256SUMS"),
      Step.checked (.shell ("mkdir -p src && mv ./litecoin-" ++ a.version ++ ".tar.gz ./src")),
      Step.checked (.shell "mkdir -p linux && mv ./*-linux* ./linux"),
      Step.checked (.shell "mkdir -p osx && mv ./*-osx* ./osx"),
      Step.checked (.shell "mkdir -p win && mv ./*-win* ./win"),
      Step.checked (.shell "for f in ./*/*; do if [ ! -d \x22$f\x22 ]; then gpg --digest-algo sha256 --armor --detach-sign $f; fi done")]

/-! ## Verify stage -/

/-- The five `gverify` probes of `verify()`, in program order: linux,
win-unsigned, osx-unsigned (unsigned phase), then win-signed, osx-signed. -/
def verifyProbes (a : Args) : List Cmd :=
  [.gverify "../gitian.sigs.ltc/" (a.version ++ "-linux") "../gitian-descriptors/gitian-linux.yml",
   .gverify "../gitian.sigs.ltc/" (a.version ++ "-win-unsigned") "../gitian-descriptors/gitian-win.yml",
   .gverify "../gitian.sigs.ltc/" (a.version ++ "-osx-unsigned") "../gitian-descriptors/gitian-osx.yml",
   .gverify "../gitian.sigs.ltc/" (a.version ++ "-win-signed") "../gitian-descriptors/gitian-win-signer.yml",
   .gverify "../gitian.sigs.ltc/" (a.version ++ "-osx-signed") "../gitian-descriptors/gitian-osx-signer.yml"]

/-- The `rc` accumulation of `verify()`: starting from 0, each probe whose
`subprocess.call` returns non-zero sets `rc = 1`; no probe is skipped. -/
def verifyRc (w : Cmd → Bool) (probes : List Cmd) : Nat :=
  probes.foldl (fun rc p => if w p then rc else 1) 0

/-- `verify()`: pulls the ledger (`check_call`; failure raises, yielding no
return code), then runs all five probes via plain `subprocess.call` and
returns the aggregated `rc`. -/
def verifyRun (a : Args) (w : Cmd → Bool) : List Cmd × Option Nat :=
  let pull := Cmd.gitPull "gitian.sigs.ltc"
  if w pull then (pull :: verifyProbes a, some (verifyRc w (verifyProbes a)))
  else ([pull], none)

/-! ## `main` -/

/-- Environment inputs consumed by a run: the success oracle for external
commands, the hash printed by `git show` for the fetched PR merge head, the
keygrip enumeration for the signer, and a coarse outcome for the optional
`setup()` stage (whose filesystem/network internals no verified property
depends on): either it completes and `main` continues, or it terminates the
process (its bionic LXC path calls `sys.exit(0)` after requiring a reboot,
and its failure paths exit non-zero). -/
structure Env where
  w : Cmd → Bool
  fetchHeadHash : String
  keygrips : List String
  setupExits : Bool
  setupExitCode : Nat

/-- How a run terminates. -/
inductive RunEnd where
  /-- an explicit `sys.exit(code)` -/
  | exited (code : Nat)
  /-- an uncaught exception from a failed checked command -/
  | crashed
  /-- fell through to the final `print('DONE')` (process status 0) -/
  | completed
deriving DecidableEq, Repr

/-- Stage entry markers, in the dispatch order of `main`. -/
inductive StageTag where
  | setup
  | build
  | codesign
  | sign
  | verify
  | package
deriving DecidableEq, Repr

/-- Observable outcome of a run of `main` after a successful `parse_args`:
the external commands of the stage bodies in order, the stages entered, the
`version`/`commit` values the stage executors consume (after optional
pull-request resolution), and how the process ended. -/
structure MainResult where
  trace : List Cmd
  stages : List StageTag
  finalVersion : String
  finalCommit : String
  ending : RunEnd
deriving DecidableEq, Repr

/-- The build/codesign/sign stage sequence `main` dispatches (in this fixed
order), as tagged stage bodies. -/
def stageSeq (a : Args) (env : Env) : List (StageTag × List Step) :=
  (if a.build then [(StageTag.build, buildSteps a env.keygrips)] else [])
  ++ (if a.codesign then [(StageTag.codesign, codesignSteps a env.keygrips)] else [])
  ++ (if a.sign then [(StageTag.sign, signSteps a env.keygrips)] else [])

/-- Run tagged stage bodies in order, stopping at the first stage whose body
crashes (uncaught `CalledProcessError` propagates out of `main`). -/
def runStageList (w : Cmd → Bool) : List (StageTag × List Step) → List Cmd × List StageTag × Bool
  | [] => ([], [], true)
  | (tag, steps) :: rest =>
    let r := execSteps w steps
    if r.2 then
      let rr := runStageList w rest
      (r.1 ++ rr.1, tag :: rr.2.1, rr.2.2)
    else (r.1, [tag], false)

/-- The tail of `main` after build/codesign/sign: `if args.verify:
sys.exit(verify())` — an unconditional process exit with the aggregate return
code — then `if args.package: package()`, then the final `DONE`. -/
def finishRun (a : Args) (env : Env) (t0 : List Cmd) (st0 : List StageTag) : MainResult :=
  if a.verify then
    let vr := verifyRun a env.w
    { trace := t0 ++ vr.1
      stages := st0 ++ [StageTag.verify]
      finalVersion := a.version
      finalCommit := a.commit
      ending := match vr.2 with | some rc => .exited rc | none => .crashed }
  else if a.package then
    let pk := execSteps env.w (packageSteps a env.keygrips)
    { trace := t0 ++ pk.1
      stages := st0 ++ [StageTag.package]
      finalVersion := a.version
      finalCommit := a.commit
      ending := if pk.2 then .completed else .crashed }
  else
    { trace := t0, stages := st0, finalVersion := a.version,
      finalCommit := a.commit, ending := .completed }

/-- `main` after a successful `parse_args` (environment normalization, the
interactive GPG-password prompt and stdout printing have no bearing on the
modelled observables; normalization is `normalizeEnv` above).  In order:
optional `setup()`; early `sys.exit(0)` when no stage flag is set; optional
pull-request resolution rewriting `commit` to the fetched merge-head hash and
`version` to `pull-<n>` before any stage runs; `git pull` of gitian-builder
when build/sign/codesign is requested; then the stage dispatch. -/
def mainRun (a₀ : Args) (env : Env) : MainResult :=
  if a₀.setup && env.setupExits then
    { trace := [], stages := [StageTag.setup], finalVersion := a₀.version,
      finalCommit := a₀.commit, ending := .exited env.setupExitCode }
  else
    let st0 : List StageTag := if a₀.setup then [StageTag.setup] else []
    if !(a₀.build || a₀.sign || a₀.verify || a₀.codesign || a₀.package) then
      { trace := [], stages := st0, finalVersion := a₀.version,
        finalCommit := a₀.commit, ending := .exited 0 }
    else
      let pullSteps : List Step :=
        if a₀.pull then
          [Step.checked (.gitFetchPR a₀.url ("refs/pull/" ++ a₀.version ++ "/merge")),
           Step.checked .gitShowHead]
        else []
      let pr := execSteps env.w pullSteps
      if !pr.2 then
        { trace := pr.1, stages := st0, finalVersion := a₀.version,
          finalCommit := a₀.commit, ending := .crashed }
      else
        let a : Args :=
          if a₀.pull then
            { a₀ with commit := env.fetchHeadHash, version := "pull-" ++ a₀.version }
          else a₀
        let gbSteps : List Step :=
          if a.build || a.sign || a.codesign then [Step.checked (.gitPull "gitian-builder")]
          else []
        let gr := execSteps env.w gbSteps
        if !gr.2 then
          { trace := pr.1 ++ gr.1, stages := st0, finalVersion := a.version,
            finalCommit := a.commit, ending := .crashed }
        else
          let sr := runStageList env.w (stageSeq a env)
          if !sr.2.2 then
            { trace := pr.1 ++ gr.1 ++ sr.1, stages := st0 ++ sr.2.1,
              finalVersion := a.version, finalCommit := a.commit, ending := .crashed }
          else
            finishRun a env (pr.1 ++ gr.1 ++ sr.1) (st0 ++ sr.2.1)

/-! ## Observations over command traces -/

/-- Descriptors of `gbuild` invocations (the build stage's builder calls), in
trace order. -/
def gbuildDescriptors : List Cmd → List String
  | [] => []
  | .gbuild _ _ _ _ d :: l => d :: gbuildDescriptors l
  | _ :: l => gbuildDescriptors l

/-- `(commit binding, descriptor)` of each `gbuild` invocation, in order. -/
def gbuildCommits : List Cmd → List (String × String)
  | [] => []
  | .gbuild _ _ cb _ d :: l => (cb, d) :: gbuildCommits l
  | _ :: l => gbuildCommits l

/-- The build-stage target descriptors, in the fixed linux, windows, macos
order, restricted to the enabled targets. -/
def enabledDescriptors (a : Args) : List String :=
  (if a.linux then ["../gitian-descriptors/gitian-linux.yml"] else [])
  ++ (if a.windows then ["../gitian-descriptors/gitian-win.yml"] else [])
  ++ (if a.macos then ["../gitian-descriptors/gitian-osx.yml"] else [])

/-- Paths staged by `git add` in the signature ledger (`gitian.sigs.ltc`). -/
def ledgerAddPaths : List Cmd → List String
  | [] => []
  | .gitAdd r p :: l => if r = "gitian.sigs.ltc" then p :: ledgerAddPaths l else ledgerAddPaths l
  | _ :: l => ledgerAddPaths l

/-- Is the command a commit-like repository mutation (`git commit`,
`git commit -a`, `git tag -s`, `git push`)? -/
def isCommitCmd : Cmd → Bool
  | .gitCommit _ _ => true
  | .gitCommitAll _ _ => true
  | .gitTagSigned _ _ => true
  | .gitPush _ _ => true
  | _ => false

/-- `true` when no command of the list is commit-like. -/
def commitFree : List Cmd → Bool
  | [] => true
  | c :: l => !(isCommitCmd c) && commitFree l

/-- Number of `git commit` invocations in the signature ledger. -/
def ledgerCommitCount : List Cmd → Nat
  | [] => 0
  | .gitCommit r _ :: l => (if r = "gitian.sigs.ltc" then 1 else 0) + ledgerCommitCount l
  | .gitCommitAll r _ :: l => (if r = "gitian.sigs.ltc" then 1 else 0) + ledgerCommitCount l
  | _ :: l => ledgerCommitCount l

/-- The keygrips of the `gpg-preset-passphrase` calls in a trace, in order. -/
def presetKeygrips : List Cmd → List String
  | [] => []
  | .presetPassphrase _ k :: l => k :: presetKeygrips l
  | _ :: l => presetKeygrips l

/-- The commit reference recorded in a successful parse outcome. -/
def parsedCommitRef (r : ParseResult) : Option String :=
  match r.outcome with
  | .ok a => some a.commit
  | .error _ => none

/-! ## Concrete fixtures

Concrete argument records, environments and success oracles used to
instantiate the theorems on explicit runs. -/

/-- The all-success external world. -/
def allOk : Cmd → Bool := fun _ => true

/-- Args as `parse_args` produces them for `-b alice 1.2.3` (all three
targets enabled, build stage, ledger commits on). -/
def c1Args : Args :=
  { commit := "v1.2.3", pull := false,
    url := "https://github.com/litecoin-project/litecoin",
    verify := false, build := true, sign := false, buildsign := false, os := "lwm",
    jobs := "2", memory := "2000", kvm := false, docker := false, setup := false,
    detach_sign := false, commit_files := true, codesign := false, package := false,
    gpg_password := "pw", disable_apt_cacher := false, linux := true, windows := true,
    macos := true, sign_prog := "gpg --batch --yes --detach-sign", is_bionic := false,
    signer := "alice", version := "1.2.3" }

/-- A world in which exactly the linux builder invocation of `c1Args` fails. -/
def c1World : Cmd → Bool :=
  fun c => decide (c ≠ gbuildCmd c1Args "../gitian-descriptors/gitian-linux.yml")

/-- `c1Args` with linux disabled (as from `-o wm`). -/
def c1WinArgs : Args := { c1Args with linux := false }

/-- A world in which exactly the windows signer (`gsign`) invocation of
`c1Args` fails. -/
def c1WinWorld : Cmd → Bool :=
  fun c => decide (c ≠ Cmd.gsign "gpg --batch --yes --detach-sign" "alice"
    "1.2.3-win-unsigned" "../gitian.sigs.ltc/" "../gitian-descriptors/gitian-win.yml")

/-- The steps of `buildSteps c1Args []` preceding the windows `gsign`
invocation: the complete linux target block followed by the windows builder
invocation and credential staging. -/
def c1FailPrefix : List Step :=
  [Step.checked (Cmd.gbuild "2" "2000" "litecoin=v1.2.3"
      "litecoin=https://github.com/litecoin-project/litecoin"
      "../gitian-descriptors/gitian-linux.yml"),
   Step.unchecked Cmd.killAgent,
   Step.checked Cmd.startAgentDaemon,
   Step.unchecked (Cmd.listKeygrips "alice"),
   Step.checked (Cmd.gsign "gpg --batch --yes --detach-sign" "alice" "1.2.3-linux"
     "../gitian.sigs.ltc/" "../gitian-descriptors/gitian-linux.yml"),
   Step.checked (Cmd.shell "mv build/out/litecoin-*.tar.gz build/out/src/litecoin-*.tar.gz ../litecoin-binaries/1.2.3"),
   Step.checked (Cmd.gbuild "2" "2000" "litecoin=v1.2.3"
      "litecoin=https://github.com/litecoin-project/litecoin"
      "../gitian-descriptors/gitian-win.yml"),
   Step.unchecked Cmd.killAgent,
   Step.checked Cmd.startAgentDaemon,
   Step.unchecked (Cmd.listKeygrips "alice")]

/-- Args of the linux-only build scenario: version `1.2.3`, commit reference
not given as a raw commit (so `v1.2.3`), targets `{linux}`, build stage only,
ledger commits on, signer `s`. -/
def scenarioArgs (s : String) : Args :=
  { commit := "v1.2.3", pull := false,
    url := "https://github.com/litecoin-project/litecoin",
    verify := false, build := true, sign := false, buildsign := false, os := "l",
    jobs := "2", memory := "2000", kvm := false, docker := false, setup := false,
    detach_sign := false, commit_files := true, codesign := false, package := false,
    gpg_password := "pw", disable_apt_cacher := false, linux := true, windows := false,
    macos := false, sign_prog := "gpg --batch --yes --detach-sign", is_bionic := false,
    signer := s, version := "1.2.3" }

/-- Command line for `alice 1.2.3` (tag build). -/
def cliTag : CliArgs := { signer := some "alice", version := some "1.2.3" }

/-- Command line for `-c -v -o w alice mweb` (raw commit reference). -/
def cliCommitRef : CliArgs :=
  { commit := true, verify := true, os := "w", signer := some "alice", version := some "mweb" }

/-- Command line with the version positional argument omitted. -/
def cliMissingVersion : CliArgs := { signer := some "alice" }

/-- Command line with the signer positional argument omitted. -/
def cliMissingSigner : CliArgs := { version := some "0.21.3" }

/-- Args as `parse_args` produces them for `-v alice 1.2.3` (verify only). -/
def verifyArgs : Args :=
  { commit := "v1.2.3", pull := false,
    url := "https://github.com/litecoin-project/litecoin",
    verify := true, build := false, sign := false, buildsign := false, os := "lwm",
    jobs := "2", memory := "2000", kvm := false, docker := false, setup := false,
    detach_sign := false, commit_files := true, codesign := false, package := false,
    gpg_password := "", disable_apt_cacher := false, linux := true, windows := true,
    macos := true, sign_prog := "gpg --batch --yes --detach-sign", is_bionic := false,
    signer := "alice", version := "1.2.3" }

/-- `verifyArgs` with the package stage requested as well. -/
def c10Args : Args := { verifyArgs with package := true }

/-- Args as `parse_args` produces them for `-b -p alice 42` (pull-request
build of PR number 42; the parse-time commit reference is `v42` until
resolution). -/
def pullArgs : Args :=
  { commit := "v42", pull := true,
    url := "https://github.com/litecoin-project/litecoin",
    verify := false, build := true, sign := false, buildsign := false, os := "lwm",
    jobs := "2", memory := "2000", kvm := false, docker := false, setup := false,
    detach_sign := false, commit_files := true, codesign := false, package := false,
    gpg_password := "pw", disable_apt_cacher := false, linux := true, windows := true,
    macos := true, sign_prog := "gpg --batch --yes --detach-sign", is_bionic := false,
    signer := "alice", version := "42" }

/-- `c1Args` with ledger commits disabled (`--no-commit`). -/
def noCommitArgs : Args := { c1Args with commit_files := false }

/-- Environment with every external command succeeding. -/
def allOkEnv : Env :=
  { w := allOk, fetchHeadHash := "8f41bdca6dbcb6a47a79b2f38e9a05a6c979e2cb",
    keygrips := ["k1", "k2"], setupExits := false, setupExitCode := 0 }

/-- Environment in which exactly the signed-MacOS verify probe of
`verifyArgs` fails. -/
def verifyEnvOneFail : Env :=
  { w := fun c => decide (c ≠ Cmd.gverify "../gitian.sigs.ltc/" "1.2.3-osx-signed"
        "../gitian-descriptors/gitian-osx-signer.yml"),
    fetchHeadHash := "", keygrips := [], setupExits := false, setupExitCode := 0 }

/-! ## Lemmas about the observations -/

@[simp] theorem gbuildDescriptors_append (l₁ l₂ : List Cmd) :
    gbuildDescriptors (l₁ ++ l₂) = gbuildDescriptors l₁ ++ gbuildDescriptors l₂ := by
  induction l₁ with
  | nil => simp [gbuildDescriptors]
  | cons c l ih => cases c <;> simp [gbuildDescriptors, ih]

@[simp] theorem gbuildCommits_append (l₁ l₂ : List Cmd) :
    gbuildCommits (l₁ ++ l₂) = gbuildCommits l₁ ++ gbuildCommits l₂ := by
  induction l₁ with
  | nil => simp [gbuildCommits]
  | cons c l ih => cases c <;> simp [gbuildCommits, ih]

@[simp] theorem ledgerAddPaths_append (l₁ l₂ : List Cmd) :
    ledgerAddPaths (l₁ ++ l₂) = ledgerAddPaths l₁ ++ ledgerAddPaths l₂ := by
  induction l₁ with
  | nil => simp [ledgerAddPaths]
  | cons c l ih =>
    cases c <;> simp [ledgerAddPaths, ih]
    split <;> simp

@[simp] theorem ledgerCommitCount_append (l₁ l₂ : List Cmd) :
    ledgerCommitCount (l₁ ++ l₂) = ledgerCommitCount l₁ + ledgerCommitCount l₂ := by
  induction l₁ with
  | nil => simp [ledgerCommitCount]
  | cons c l ih => cases c <;> simp [ledgerCommitCount, ih] <;> omega

@[simp] theorem presetKeygrips_append (l₁ l₂ : List Cmd) :
    presetKeygrips (l₁ ++ l₂) = presetKeygrips l₁ ++ presetKeygrips l₂ := by
  induction l₁ with
  | nil => simp [presetKeygrips]
  | cons c l ih => cases c <;> simp [presetKeygrips, ih]

@[simp] theorem commitFree_append (l₁ l₂ : List Cmd) :
    commitFree (l₁ ++ l₂) = (commitFree l₁ && commitFree l₂) := by
  induction l₁ with
  | nil => simp [commitFree]
  | cons c l ih => simp [commitFree, ih, Bool.and_assoc]

@[simp] theorem gbuildDescriptors_map_preset (pw : String) (kg : List String) :
    gbuildDescriptors (kg.map (Cmd.presetPassphrase pw)) = [] := by
  induction kg with
  | nil => simp [gbuildDescriptors]
  | cons k r ih => simp [gbuildDescriptors, ih]

@[simp] theorem gbuildCommits_map_preset (pw : String) (kg : List String) :
    gbuildCommits (kg.map (Cmd.presetPassphrase pw)) = [] := by
  induction kg with
  | nil => simp [gbuildCommits]
  | cons k r ih => simp [gbuildCommits, ih]

@[simp] theorem ledgerAddPaths_map_preset (pw : String) (kg : List String) :
    ledgerAddPaths (kg.map (Cmd.presetPassphrase pw)) = [] := by
  induction kg with
  | nil => simp [ledgerAddPaths]
  | cons k r ih => simp [ledgerAddPaths, ih]

@[simp] theorem ledgerCommitCount_map_preset (pw : String) (kg : List String) :
    ledgerCommitCount (kg.map (Cmd.presetPassphrase pw)) = 0 := by
  induction kg with
  | nil => simp [ledgerCommitCount]
  | cons k r ih => simp [ledgerCommitCount, ih]

@[simp] theorem presetKeygrips_map_preset (pw : String) (kg : List String) :
    presetKeygrips (kg.map (Cmd.presetPassphrase pw)) = kg := by
  induction kg with
  | nil => simp [presetKeygrips]
  | cons k r ih => simp [presetKeygrips, ih]

@[simp] theorem commitFree_map_preset (pw : String) (kg : List String) :
    commitFree (kg.map (Cmd.presetPassphrase pw)) = true := by
  induction kg with
  | nil => simp [commitFree]
  | cons k r ih => simp [commitFree, isCommitCmd, ih]

/-- The commands of a credential-staging body, explicitly. -/
theorem stepCmds_presetSteps (pw s : String) (kg : List String) :
    stepCmds (presetSteps pw s kg) =
      Cmd.killAgent :: Cmd.startAgentDaemon :: Cmd.listKeygrips s
        :: kg.map (Cmd.presetPassphrase pw) := by
  simp [presetSteps, stepCmds, Step.cmd, List.map_map]

/-- Completion of a run of only checked commands mapped over a list means
every one of them succeeded, and conversely. -/
theorem execSteps_checked_map (w : Cmd → Bool) (f : String → Cmd) (l : List String) :
    (execSteps w (l.map fun k => Step.checked (f k))).2 = l.all fun k => w (f k) := by
  induction l with
  | nil => simp [execSteps]
  | cons k rest ih => by_cases h : w (f k) <;> simp [execSteps, h, ih]

/-- The `rc` aggregation of `verify()` is 0 exactly when every probe passed. -/
theorem verifyRc_eq (w : Cmd → Bool) (probes : List Cmd) :
    verifyRc w probes = if probes.all w then 0 else 1 := by
  have h : ∀ (l : List Cmd) (r : Nat),
      l.foldl (fun rc p => if w p then rc else 1) r = if l.all w then r else 1 := by
    intro l
    induction l with
    | nil => simp
    | cons p rest ih =>
      intro r
      by_cases hp : w p <;> simp [hp, ih]
  simpa [verifyRc] using h probes 0

/-- Stages entered by `runStageList` are tags of the supplied stage list. -/
theorem runStageList_tags (w : Cmd → Bool) (l : List (StageTag × List Step)) :
    ∀ t ∈ (runStageList w l).2.1, t ∈ l.map Prod.fst := by
  induction l with
  | nil => simp [runStageList]
  | cons p rest ih =>
    by_cases h : (execSteps w p.2).2
    · intro t ht
      simp [runStageList, h] at ht
      rcases ht with ht | ht
      · simp [ht]
      · simp [ih t ht]
    · intro t ht
      simp [runStageList, h] at ht
      simp [ht]

/-- Under an all-success oracle, `runStageList` runs every stage body fully. -/
theorem runStageList_allTrue (w : Cmd → Bool) (hw : ∀ c, w c = true)
    (l : List (StageTag × List Step)) :
    runStageList w l = ((l.map fun p => stepCmds p.2).flatten, l.map Prod.fst, true) := by
  induction l with
  | nil => simp [runStageList]
  | cons p rest ih =>
    simp [runStageList, execSteps_allTrue w hw, ih]

/-- The build/codesign/sign dispatch of `main` never contains the package tag. -/
theorem stageSeq_no_package (a : Args) (env : Env) :
    StageTag.package ∉ (stageSeq a env).map Prod.fst := by
  cases hb : a.build <;> cases hc : a.codesign <;> cases hs : a.sign <;>
    simp [stageSeq, hb, hc, hs]

/-- No stage entered by the build/codesign/sign dispatch is the package
stage. -/
theorem package_not_in_runStageList (w : Cmd → Bool) (a : Args) (env : Env) :
    StageTag.package ∉ (runStageList w (stageSeq a env)).2.1 := by
  intro h
  exact stageSeq_no_package a env (runStageList_tags w _ _ h)

theorem package_not_mem_setup_ite (c : Bool) :
    StageTag.package ∉ (if c then [StageTag.setup] else ([] : List StageTag)) := by
  cases c <;> simp

/-- When the verify flag is on, the tail of `main` appends exactly the verify
stage and never ends with the fall-through `DONE`. -/
theorem finishRun_verify_shape (b : Args) (env : Env) (t0 : List Cmd)
    (st0 : List StageTag) (hbv : b.verify = true) :
    (finishRun b env t0 st0).stages = st0 ++ [StageTag.verify]
    ∧ (finishRun b env t0 st0).ending ≠ RunEnd.completed := by
  refine ⟨by simp [finishRun, hbv], ?_⟩
  cases h2 : (verifyRun b env.w).2 <;> simp [finishRun, hbv, h2]

theorem finishRun_finalVersion (b : Args) (env : Env) (t0 : List Cmd)
    (st0 : List StageTag) :
    (finishRun b env t0 st0).finalVersion = b.version := by
  unfold finishRun
  split_ifs <;> rfl

theorem finishRun_finalCommit (b : Args) (env : Env) (t0 : List Cmd)
    (st0 : List StageTag) :
    (finishRun b env t0 st0).finalCommit = b.commit := by
  unfold finishRun
  split_ifs <;> rfl

theorem finishRun_trace_mem (b : Args) (env : Env) (t0 : List Cmd)
    (st0 : List StageTag) (c : Cmd) (hc : c ∈ t0) :
    c ∈ (finishRun b env t0 st0).trace := by
  unfold finishRun
  split_ifs <;> simp [hc]

/-! ## Claims -/

/-- C2 counterexample: with only the kvm flag set (a valid flag combination),
environment normalization leaves zero of the three isolation-mode indicators
active, not exactly one: there is no kvm indicator variable, kvm mode is
selected by clearing all three. -/
theorem kvm_mode_no_active_indicator :
    isolationActiveCount (normalizeEnv true false {}) = 0
    ∧ ¬ isolationActiveCount (normalizeEnv true false {}) = 1 := by decide

/-- C2 (amended): after environment normalization, for every valid
combination of the kvm/docker flags, at most one of the three isolation-mode
indicators is active: exactly `USE_DOCKER` when the docker flag is set,
exactly `USE_LXC` when both flags are false, and none of the three when only
the kvm flag is set (kvm being signaled to the builder by the absence of all
three). -/
theorem normalizeEnv_at_most_one_indicator (e : EnvVars) (kvm docker : Bool)
    (h : ¬(kvm = true ∧ docker = true)) :
    isolationActiveCount (normalizeEnv kvm docker e) ≤ 1
    ∧ (docker = true →
        isActive (normalizeEnv kvm docker e).use_docker = true
        ∧ isActive (normalizeEnv kvm docker e).use_lxc = false
        ∧ isActive (normalizeEnv kvm docker e).use_vbox = false)
    ∧ (kvm = false → docker = false →
        isActive (normalizeEnv kvm docker e).use_lxc = true
        ∧ isActive (normalizeEnv kvm docker e).use_vbox = false
        ∧ isActive (normalizeEnv kvm docker e).use_docker = false)
    ∧ (kvm = true → docker = false →
        isolationActiveCount (normalizeEnv kvm docker e) = 0) := by
  cases hk : kvm <;> cases hd : docker <;>
    simp_all [normalizeEnv, isolationActiveCount, isActive]

/-- C2 witness: with the docker flag set, exactly the docker indicator is
active after normalization. -/
theorem normalizeEnv_at_most_one_indicator_witness :
    isolationActiveCount (normalizeEnv false true {}) ≤ 1
    ∧ isActive (normalizeEnv false true {}).use_docker = true := by
  have h := normalizeEnv_at_most_one_indicator {} false true (by simp)
  exact ⟨h.1, (h.2.1 rfl).1⟩

/-- C3 (code bug evidence): with the version positional argument omitted,
`parse_args` dies with a `TypeError` at the commit-reference computation
before its own missing-version usage message is reached; and with the signer
omitted, the `lsb_release` external call runs before the configuration error
is detected. -/
theorem parse_args_missing_args_crash_paths :
    parse_args cliMissingVersion true
      = { outcome := Except.error ParseError.typeErrorVersionNone, externalCalls := [] }
    ∧ parse_args cliMissingSigner true
      = { outcome := Except.error ParseError.missingSigner,
          externalCalls := [Cmd.lsbRelease] } := by decide

/-- C6: for every command line carrying a non-empty version and signer and no
conflicting flags, the parsed commit reference equals the version verbatim
when the commit flag is set and `v` prepended to the version otherwise,
independently of the OS-selector string and the stage flags (which are
arbitrary in `cli`). -/
theorem commitRef_from_version (cli : CliArgs) (b : Bool) (v s : String)
    (hnc : (cli.commit && cli.pull) = false)
    (hnk : (cli.kvm && cli.docker) = false)
    (hv : cli.version = some v) (hs : cli.signer = some s)
    (hv0 : v ≠ "") (hs0 : s ≠ "") :
    parsedCommitRef (parse_args cli b) = some (if cli.commit then v else "v" ++ v) := by
  simp [parse_args, hnc, hnk, hv, hs, hv0, hs0, parsedCommitRef]
  cases hc : cli.commit <;> simp [hc]

/-- C6 witness: concrete parses with the commit flag off and on. -/
theorem commitRef_from_version_witness :
    parsedCommitRef (parse_args cliTag false) = some "v1.2.3"
    ∧ parsedCommitRef (parse_args cliCommitRef true) = some "mweb" := by
  constructor
  · exact (commitRef_from_version cliTag false "1.2.3" "alice" rfl rfl rfl rfl
      (by decide) (by decide)).trans (by decide)
  · exact (commitRef_from_version cliCommitRef true "mweb" "alice" rfl rfl rfl rfl
      (by decide) (by decide)).trans (by decide)

/-- C8: with `commit_files` false, no command issued by the Build, Codesign
or Sign stage bodies is commit-like (no `git commit`, `git commit -a`,
`git tag -s` or `git push` anywhere), so no ledger commit occurs and the
committed history of the ledger repositories is untouched. -/
theorem no_ledger_commit_without_commit_files (a : Args) (kg : List String)
    (h : a.commit_files = false) :
    commitFree (stepCmds (buildSteps a kg) ++ stepCmds (codesignSteps a kg)
        ++ stepCmds (signSteps a kg)) = true := by
  cases hl : a.linux <;> cases hw : a.windows <;> cases hm : a.macos <;>
    simp [buildSteps, codesignSteps, signSteps, h, hl, hw, hm, stepCmds, presetSteps,
      Step.cmd, commitFree, isCommitCmd, List.map_map, Function.comp_def, gbuildCmd]

/-- C8 witness: a full-target build/codesign/sign step set under
`--no-commit` is free of commit-like commands. -/
theorem no_ledger_commit_without_commit_files_witness :
    commitFree (stepCmds (buildSteps noCommitArgs ["k1"])
        ++ stepCmds (codesignSteps noCommitArgs ["k1"])
        ++ stepCmds (signSteps noCommitArgs ["k1"])) = true :=
  no_ledger_commit_without_commit_files noCommitArgs ["k1"] rfl

/-- C9: credential staging first issues the agent kill (head of the trace)
whose failure is ignored; the fresh agent start is always attempted; the
staging completes exactly when the agent start and every per-keygrip
passphrase preset succeed (failure on any single keygrip is fatal); and a
completed staging presets the passphrase exactly once per enumerated
keygrip, in order. -/
theorem preset_gpg_passphrase_session (w : Cmd → Bool) (pw s : String) (kg : List String) :
    (execSteps w (presetSteps pw s kg)).1.head? = some Cmd.killAgent
    ∧ Cmd.startAgentDaemon ∈ (execSteps w (presetSteps pw s kg)).1
    ∧ (execSteps w (presetSteps pw s kg)).2
        = (w Cmd.startAgentDaemon && kg.all fun k => w (Cmd.presetPassphrase pw k))
    ∧ ((execSteps w (presetSteps pw s kg)).2 = true →
        presetKeygrips (execSteps w (presetSteps pw s kg)).1 = kg) := by
  refine ⟨?_, ?_, ?_, ?_⟩
  · by_cases h : w Cmd.startAgentDaemon <;> simp [presetSteps, execSteps, h]
  · by_cases h : w Cmd.startAgentDaemon <;> simp [presetSteps, execSteps, h]
  · by_cases h : w Cmd.startAgentDaemon <;>
      simp [presetSteps, execSteps, h, execSteps_checked_map]
  · intro hok
    rw [execSteps_trace_of_ok _ _ hok, stepCmds_presetSteps]
    simp [presetKeygrips]

/-- C9 witness: a concrete staging with two keygrips and a dead initial
agent (the kill reports failure) still completes and presets both keygrips. -/
theorem preset_gpg_passphrase_session_witness :
    (execSteps (fun c => decide (c ≠ Cmd.killAgent))
        (presetSteps "pw" "alice" ["k1", "k2"])).1.head? = some Cmd.killAgent
    ∧ presetKeygrips (execSteps (fun c => decide (c ≠ Cmd.killAgent))
        (presetSteps "pw" "alice" ["k1", "k2"])).1 = ["k1", "k2"] := by
  have h := preset_gpg_passphrase_session
    (fun c => decide (c ≠ Cmd.killAgent)) "pw" "alice" ["k1", "k2"]
  exact ⟨h.1, h.2.2.2 (by decide)⟩

/-- C1 counterexample: with all targets enabled and a world failing exactly
the linux builder invocation, the Build stage never attempts the windows
builder invocation — a failure on one enabled target does prevent attempting
the next — refuting independence of the per-target builds. -/
theorem build_linux_failure_blocks_windows :
    c1Args.windows = true
    ∧ Cmd.gbuild "2" "2000" "litecoin=v1.2.3"
        "litecoin=https://github.com/litecoin-project/litecoin"
        "../gitian-descriptors/gitian-win.yml"
        ∉ (execSteps c1World (buildSteps c1Args [])).1
    ∧ (execSteps c1World (buildSteps c1Args [])).2 = false := by decide

/-- C1 (amended): for every argument record and keygrip enumeration, the
Build stage's program attempts the enabled targets' builder invocations in
the fixed order linux, windows, macos (whatever subset is enabled); and for
every decomposition of the Build stage body at a failing checked command —
any builder, signer or move step of any enabled target — with the preceding
checked commands succeeding, execution attempts exactly the preceding
commands plus the failing one and stops there with the run failed: the
uncaught exception propagates, so everything after the failure, including
all subsequent enabled targets, is not attempted. -/
theorem build_fixed_order_and_abort_on_failure :
    (∀ (a : Args) (kg : List String),
      gbuildDescriptors (stepCmds (buildSteps a kg)) = enabledDescriptors a)
    ∧ (∀ (a : Args) (kg : List String) (w : Cmd → Bool)
        (l₁ : List Step) (c : Cmd) (l₂ : List Step),
        buildSteps a kg = l₁ ++ Step.checked c :: l₂ →
        (∀ c', Step.checked c' ∈ l₁ → w c' = true) →
        w c = false →
        execSteps w (buildSteps a kg) = (stepCmds l₁ ++ [c], false)) := by
  constructor
  · intro a kg
    cases hl : a.linux <;> cases hw : a.windows <;> cases hm : a.macos <;>
      cases hcf : a.commit_files <;>
      simp [buildSteps, hl, hw, hm, hcf, enabledDescriptors, stepCmds, presetSteps,
        Step.cmd, gbuildDescriptors, List.map_map, Function.comp_def, gbuildCmd]
  · intro a kg w l₁ c l₂ hsplit hok hfail
    rw [hsplit]
    exact execSteps_fail_at w l₁ c l₂ hok hfail

/-- C1 witness: the fixed order at a linux-disabled subset (windows+macos),
and the abort at a failure of the windows signer invocation — the linux
block and the windows builder run, then execution stops at the failing
windows `gsign`, so the macos target and the commit block are never
attempted. -/
theorem build_fixed_order_and_abort_on_failure_witness :
    gbuildDescriptors (stepCmds (buildSteps c1WinArgs ["k1"]))
      = ["../gitian-descriptors/gitian-win.yml", "../gitian-descriptors/gitian-osx.yml"]
    ∧ execSteps c1WinWorld (buildSteps c1Args [])
        = (stepCmds c1FailPrefix
            ++ [Cmd.gsign "gpg --batch --yes --detach-sign" "alice" "1.2.3-win-unsigned"
                "../gitian.sigs.ltc/" "../gitian-descriptors/gitian-win.yml"], false) := by
  have h := build_fixed_order_and_abort_on_failure
  refine ⟨(h.1 c1WinArgs ["k1"]).trans (by decide), ?_⟩
  exact h.2 c1Args [] c1WinWorld c1FailPrefix
    (Cmd.gsign "gpg --batch --yes --detach-sign" "alice" "1.2.3-win-unsigned"
      "../gitian.sigs.ltc/" "../gitian-descriptors/gitian-win.yml")
    ((buildSteps c1Args []).drop 11) (by decide)
    (execSteps_ok_checked c1WinWorld c1FailPrefix (by decide)) (by decide)

/-- C4 counterexample: in the linux-only build scenario with ledger commits
on and every external call succeeding, the single ledger commit does not
reference only the `1.2.3-linux/alice` path — the commit block stages the
win-unsigned and osx-unsigned entry paths as well. -/
theorem build_scenario_stages_three_paths :
    ledgerCommitCount (execSteps allOk (buildSteps (scenarioArgs "alice") [])).1 = 1
    ∧ ledgerAddPaths (execSteps allOk (buildSteps (scenarioArgs "alice") [])).1
      = ["1.2.3-linux/alice", "1.2.3-win-unsigned/alice", "1.2.3-osx-unsigned/alice"]
    ∧ ¬ ledgerAddPaths (execSteps allOk (buildSteps (scenarioArgs "alice") [])).1
      = ["1.2.3-linux/alice"] := by decide

/-- C4 (amended): in the linux-only build scenario (version `1.2.3`, commit
reference derived as `v1.2.3`, targets `{linux}`, ledger commits on) with
every external call succeeding, the builder is invoked exactly once, with
commit binding `litecoin=v1.2.3` and the linux descriptor, and exactly one
ledger commit is issued — but the commit block stages all three unsigned
entry paths (linux, win-unsigned, osx-unsigned) under the signer,
unconditionally, not only the linux one. -/
theorem build_scenario_one_commit_all_unsigned_paths (s : String) (kg : List String)
    (w : Cmd → Bool) (hw : ∀ c, w c = true) :
    gbuildCommits (execSteps w (buildSteps (scenarioArgs s) kg)).1
      = [("litecoin=v1.2.3", "../gitian-descriptors/gitian-linux.yml")]
    ∧ ledgerCommitCount (execSteps w (buildSteps (scenarioArgs s) kg)).1 = 1
    ∧ ledgerAddPaths (execSteps w (buildSteps (scenarioArgs s) kg)).1
      = ["1.2.3-linux/" ++ s, "1.2.3-win-unsigned/" ++ s, "1.2.3-osx-unsigned/" ++ s] := by
  rw [execSteps_allTrue w hw]
  refine ⟨?_, ?_, ?_⟩ <;>
    simp [buildSteps, scenarioArgs, stepCmds, presetSteps, Step.cmd, List.map_map,
      Function.comp_def, gbuildCommits, ledgerCommitCount, ledgerAddPaths, gbuildCmd]

/-- C4 witness: the amended scenario theorem at signer `alice`, two keygrips
and the all-success world. -/
theorem build_scenario_one_commit_all_unsigned_paths_witness :
    gbuildCommits (execSteps allOk (buildSteps (scenarioArgs "alice") ["k1", "k2"])).1
      = [("litecoin=v1.2.3", "../gitian-descriptors/gitian-linux.yml")]
    ∧ ledgerCommitCount (execSteps allOk (buildSteps (scenarioArgs "alice") ["k1", "k2"])).1 = 1
    ∧ ledgerAddPaths (execSteps allOk (buildSteps (scenarioArgs "alice") ["k1", "k2"])).1
      = ["1.2.3-linux/" ++ "alice", "1.2.3-win-unsigned/" ++ "alice",
         "1.2.3-osx-unsigned/" ++ "alice"] :=
  build_scenario_one_commit_all_unsigned_paths "alice" ["k1", "k2"] allOk (fun _ => rfl)

/-- C5: with the verify stage (alone) requested and the ledger pull
succeeding, the run executes the ledger pull followed by all five probes —
no probe outcome skips a later probe — and the process exits with code 0
exactly when all five probes succeed, code 1 otherwise. -/
theorem verify_all_probes_and_exit_code (a : Args) (env : Env)
    (hsetup : a.setup = false) (hb : a.build = false) (hs : a.sign = false)
    (hc : a.codesign = false) (hp : a.pull = false) (hv : a.verify = true)
    (hpull : env.w (Cmd.gitPull "gitian.sigs.ltc") = true) :
    (mainRun a env).trace = Cmd.gitPull "gitian.sigs.ltc" :: verifyProbes a
    ∧ (mainRun a env).stages = [StageTag.verify]
    ∧ (mainRun a env).ending
        = RunEnd.exited (if (verifyProbes a).all env.w then 0 else 1) := by
  simp [mainRun, hsetup, hb, hs, hc, hp, hv, execSteps, stageSeq, runStageList,
    finishRun, verifyRun, hpull, verifyRc_eq]

/-- C5 witness: a verify-only run in which exactly the signed-MacOS probe
fails still runs all five probes and exits with code 1. -/
theorem verify_all_probes_and_exit_code_witness :
    (mainRun verifyArgs verifyEnvOneFail).trace
      = Cmd.gitPull "gitian.sigs.ltc" :: verifyProbes verifyArgs
    ∧ (mainRun verifyArgs verifyEnvOneFail).ending = RunEnd.exited 1 := by
  have h := verify_all_probes_and_exit_code verifyArgs verifyEnvOneFail
    rfl rfl rfl rfl rfl rfl (by decide)
  refine ⟨h.1, ?_⟩
  have hall : ((verifyProbes verifyArgs).all verifyEnvOneFail.w) = false := by decide
  simpa [hall] using h.2.2

/-- C7: in a pull-request run for PR number 42 where the fetch and hash read
succeed, the `version`/`commit` values the stage executors consume are
`pull-42` and the fetched merge-head hash, and (with the linux build
enabled, all calls succeeding) the builder is invoked with the hash as the
commit binding — resolution happens before any stage consumes the values. -/
theorem pull_resolution_rewrites_before_stages (a : Args) (env : Env)
    (hp : a.pull = true) (hver : a.version = "42") (hsetup : a.setup = false)
    (hb : a.build = true) (hl : a.linux = true)
    (hw : ∀ c, env.w c = true) :
    (mainRun a env).finalVersion = "pull-42"
    ∧ (mainRun a env).finalCommit = env.fetchHeadHash
    ∧ Cmd.gbuild a.jobs a.memory ("litecoin=" ++ env.fetchHeadHash)
        ("litecoin=" ++ a.url) "../gitian-descriptors/gitian-linux.yml"
        ∈ (mainRun a env).trace := by
  have hstr : ("pull-" ++ "42" : String) = "pull-42" := rfl
  refine ⟨?_, ?_, ?_⟩ <;>
    simp [mainRun, hsetup, hp, hver, hb, hl, execSteps, hw,
      runStageList_allTrue env.w hw, stageSeq, buildSteps, stepCmds, Step.cmd,
      finishRun_finalVersion, finishRun_finalCommit, finishRun_trace_mem, hstr, gbuildCmd]

/-- C7 witness: the concrete PR-42 build run under the all-success
environment. -/
theorem pull_resolution_rewrites_before_stages_witness :
    (mainRun pullArgs allOkEnv).finalVersion = "pull-42"
    ∧ (mainRun pullArgs allOkEnv).finalCommit
        = "8f41bdca6dbcb6a47a79b2f38e9a05a6c979e2cb"
    ∧ Cmd.gbuild "2" "2000" "litecoin=8f41bdca6dbcb6a47a79b2f38e9a05a6c979e2cb"
        "litecoin=https://github.com/litecoin-project/litecoin"
        "../gitian-descriptors/gitian-linux.yml" ∈ (mainRun pullArgs allOkEnv).trace := by
  have h := pull_resolution_rewrites_before_stages pullArgs allOkEnv
    rfl rfl rfl rfl rfl (fun _ => rfl)
  exact ⟨h.1, h.2.1, h.2.2⟩

/-- C10: whenever the verify stage is requested, the run never enters the
package stage and never reaches the fall-through end of `main` — the
`sys.exit` after `verify()` (or an earlier exit or crash) terminates the
process first, even when the package stage was also requested. -/
theorem verify_exit_precludes_package (a : Args) (env : Env) (hv : a.verify = true) :
    StageTag.package ∉ (mainRun a env).stages
    ∧ (mainRun a env).ending ≠ RunEnd.completed := by
  constructor <;> unfold mainRun <;> split_ifs
  all_goals
    repeat
      first
      | exact (finishRun_verify_shape a env _ _ hv).2
      | exact (finishRun_verify_shape
          { a with commit := env.fetchHeadHash, version := "pull-" ++ a.version }
          env _ _ hv).2
      | (rw [(finishRun_verify_shape a env _ _ hv).1]
         simp [package_not_mem_setup_ite, package_not_in_runStageList])
      | (rw [(finishRun_verify_shape
            { a with commit := env.fetchHeadHash, version := "pull-" ++ a.version }
            env _ _ hv).1]
         simp [package_not_mem_setup_ite, package_not_in_runStageList])
      | simp [package_not_mem_setup_ite, package_not_in_runStageList]
      | split

/-- C10 witness: a run requesting both verify and package never enters the
package stage. -/
theorem verify_exit_precludes_package_witness :
    StageTag.package ∉ (mainRun c10Args allOkEnv).stages
    ∧ (mainRun c10Args allOkEnv).ending ≠ RunEnd.completed :=
  verify_exit_precludes_package c10Args allOkEnv rfl

end BuildRelease
